import Mathlib

/-!
Shallow embedding of the simulation core of the `walk-the-dog` side-scrolling
runner (sources: `src/game.rs`, `src/engine.rs`, `src/segment.rs`).

Machine integers: the Rust sources use `i16` for coordinates/velocities and
`u8` for animation-frame counters.  They are embedded as `Int` and `Nat`
respectively; every frame-counter mutation in the sources keeps the counter
at most `JUMPING_FRAMES + 1 = 36`, so `Nat` is exact, and the claims about
tags, frames and the untouched x-components are invariant under the width
of the y-arithmetic.  For the one claim whose subject is the unbounded
growth of the vertical velocity, a second embedding of the context update
(`RedHatBoyContext.updateWrap`) models the release-mode two's-complement
wrapping of the `i16` additions; `update_eq_updateWrap` proves the two
embeddings agree whenever the intermediate sums stay inside the `i16`
range.
-/

/-- Point from `engine.rs`: `pub struct Point { pub x: i16, pub y: i16 }`. -/
structure Point where
  x : Int
  y : Int
deriving DecidableEq, Repr

/-- Constant `CANVAS_HEIGHT` from `game.rs`. -/
def CANVAS_HEIGHT : Int := 600

namespace red_hat_boy_states

/-- Constant `FLOOR` from the `red_hat_boy_states` module of `game.rs`. -/
def FLOOR : Int := 479

/-- Constant `STARTING_POINT` from `game.rs`. -/
def STARTING_POINT : Int := -20

/-- Constant `IDLE_FRAMES` from `game.rs` (`u8`, embedded as `Nat`). -/
def IDLE_FRAMES : Nat := 29

/-- Constant `RUNNING_FRAMES` from `game.rs`. -/
def RUNNING_FRAMES : Nat := 23

/-- Constant `SLIDING_FRAMES` from `game.rs`. -/
def SLIDING_FRAMES : Nat := 14

/-- Constant `JUMPING_FRAMES` from `game.rs`. -/
def JUMPING_FRAMES : Nat := 35

/-- Constant `FALLING_FRAMES` from `game.rs`. -/
def FALLING_FRAMES : Nat := 29

/-- Constant `RUNNING_SPEED` from `game.rs`. -/
def RUNNING_SPEED : Int := 4

/-- Constant `JUMP_SPEED` from `game.rs`. -/
def JUMP_SPEED : Int := -25

/-- Constant `GRAVITY` from `game.rs`. -/
def GRAVITY : Int := 1

/-- Constant `PLAYER_HEIGHT = CANVAS_HEIGHT - FLOOR` from `game.rs`. -/
def PLAYER_HEIGHT : Int := CANVAS_HEIGHT - FLOOR

/-- `RedHatBoyContext` from `game.rs`: frame counter, position, velocity. -/
structure RedHatBoyContext where
  frame : Nat
  position : Point
  velocity : Point
deriving DecidableEq, Repr

/-- `RedHatBoyContext::update(frame_count)` from `game.rs`:
gravity is added to `velocity.y`, the frame counter advances (wrapping to 0
once it reaches `frame_count`), `velocity.y` is added to `position.y`, and
`position.y` is clamped at `FLOOR`. -/
def RedHatBoyContext.update (self : RedHatBoyContext) (frame_count : Nat) :
    RedHatBoyContext :=
  let c1 := { self with velocity.y := self.velocity.y + GRAVITY }
  let c2 := if c1.frame < frame_count then { c1 with frame := c1.frame + 1 }
            else { c1 with frame := 0 }
  let c3 := { c2 with position.y := c2.position.y + c2.velocity.y }
  if c3.position.y > FLOOR then { c3 with position.y := FLOOR } else c3

/-- `RedHatBoyContext::reset_frame` from `game.rs`. -/
def RedHatBoyContext.reset_frame (self : RedHatBoyContext) : RedHatBoyContext :=
  { self with frame := 0 }

/-- `RedHatBoyContext::run_right` from `game.rs`. -/
def RedHatBoyContext.run_right (self : RedHatBoyContext) : RedHatBoyContext :=
  { self with velocity.x := self.velocity.x + RUNNING_SPEED }

/-- `RedHatBoyContext::set_vertical_velocity` from `game.rs`. -/
def RedHatBoyContext.set_vertical_velocity (self : RedHatBoyContext) (y : Int) :
    RedHatBoyContext :=
  { self with velocity.y := y }

/-- `RedHatBoyContext::stop` from `game.rs`. -/
def RedHatBoyContext.stop (self : RedHatBoyContext) : RedHatBoyContext :=
  { self with velocity.x := 0 }

/-- `RedHatBoyContext::set_on(position)` from `game.rs`:
`position.y := position - PLAYER_HEIGHT`, `velocity.y := 0`. -/
def RedHatBoyContext.set_on (self : RedHatBoyContext) (position : Int) :
    RedHatBoyContext :=
  { self with position.y := position - PLAYER_HEIGHT, velocity.y := 0 }

/-- `RedHatBoyContext::fix_frame(frame)` from `game.rs`. -/
def RedHatBoyContext.fix_frame (self : RedHatBoyContext) (frame : Nat) :
    RedHatBoyContext :=
  { self with frame := frame }

/-- Zero-sized state tag `Idle` from `game.rs`. -/
structure Idle where
deriving DecidableEq, Repr

/-- Zero-sized state tag `Running` from `game.rs`. -/
structure Running where
deriving DecidableEq, Repr

/-- Zero-sized state tag `Sliding` from `game.rs`. -/
structure Sliding where
deriving DecidableEq, Repr

/-- Zero-sized state tag `Jumping` from `game.rs`. -/
structure Jumping where
deriving DecidableEq, Repr

/-- Zero-sized state tag `Falling` from `game.rs`. -/
structure Falling where
deriving DecidableEq, Repr

/-- Zero-sized state tag `KnockedOut` from `game.rs`. -/
structure KnockedOut where
deriving DecidableEq, Repr

/-- `RedHatBoyState<S>` from `game.rs`: shared context plus a zero-sized tag. -/
structure RedHatBoyState (S : Type) where
  context : RedHatBoyContext
  _state : S
deriving DecidableEq, Repr

/-- `RedHatBoyState::<Idle>::new()` from `game.rs`. -/
def RedHatBoyState.new : RedHatBoyState Idle :=
  { context := { frame := 0,
                 position := { x := STARTING_POINT, y := FLOOR },
                 velocity := { x := 0, y := 0 } },
    _state := {} }

/-- `RedHatBoyState::<Idle>::run()` from `game.rs`. -/
def idleRun (self : RedHatBoyState Idle) : RedHatBoyState Running :=
  { context := self.context.reset_frame.run_right, _state := {} }

/-- `RedHatBoyState::<Idle>::update()` from `game.rs`. -/
def idleUpdate (self : RedHatBoyState Idle) : RedHatBoyState Idle :=
  { self with context := self.context.update IDLE_FRAMES }

/-- `RedHatBoyState::<Running>::update()` from `game.rs`. -/
def runningUpdate (self : RedHatBoyState Running) : RedHatBoyState Running :=
  { self with context := self.context.update RUNNING_FRAMES }

/-- `RedHatBoyState::<Running>::slide()` from `game.rs`. -/
def runningSlide (self : RedHatBoyState Running) : RedHatBoyState Sliding :=
  { context := self.context.reset_frame, _state := {} }

/-- `RedHatBoyState::<Running>::jump()` from `game.rs`. -/
def runningJump (self : RedHatBoyState Running) : RedHatBoyState Jumping :=
  { context := (self.context.set_vertical_velocity JUMP_SPEED).reset_frame,
    _state := {} }

/-- `RedHatBoyState::<Running>::knock_out()` from `game.rs`. -/
def runningKnockOut (self : RedHatBoyState Running) : RedHatBoyState Falling :=
  { context := self.context.reset_frame.stop, _state := {} }

/-- `RedHatBoyState::<Running>::land_on(position)` from `game.rs`. -/
def runningLandOn (self : RedHatBoyState Running) (position : Int) :
    RedHatBoyState Running :=
  { context := self.context.set_on position, _state := {} }

/-- `SlidingEndState` from `game.rs`. -/
inductive SlidingEndState where
  | Complete (state : RedHatBoyState Running)
  | Sliding (state : RedHatBoyState Sliding)
deriving DecidableEq, Repr

/-- `RedHatBoyState::<Sliding>::stand()` from `game.rs`. -/
def slidingStand (self : RedHatBoyState Sliding) : RedHatBoyState Running :=
  { context := self.context.reset_frame, _state := {} }

/-- `RedHatBoyState::<Sliding>::update()` from `game.rs`: advance the context
with the `SLIDING_FRAMES` ceiling, then complete (stand) once the frame
counter has reached `SLIDING_FRAMES`. -/
def slidingUpdate (self : RedHatBoyState Sliding) : SlidingEndState :=
  let s := { self with context := self.context.update SLIDING_FRAMES }
  if s.context.frame ≥ SLIDING_FRAMES then .Complete (slidingStand s)
  else .Sliding s

/-- `RedHatBoyState::<Sliding>::knock_out()` from `game.rs`. -/
def slidingKnockOut (self : RedHatBoyState Sliding) : RedHatBoyState Falling :=
  { context := self.context.reset_frame.stop, _state := {} }

/-- `RedHatBoyState::<Sliding>::land_on(position)` from `game.rs`. -/
def slidingLandOn (self : RedHatBoyState Sliding) (position : Int) :
    RedHatBoyState Sliding :=
  { context := self.context.set_on position, _state := {} }

/-- `JumpingEndState` from `game.rs`. -/
inductive JumpingEndState where
  | Complete (state : RedHatBoyState Running)
  | Jumping (state : RedHatBoyState Jumping)
deriving DecidableEq, Repr

/-- `RedHatBoyState::<Jumping>::land_on(position)` from `game.rs`: resets the
frame, snaps onto `position`, and produces a `Running` state. -/
def jumpingLandOn (self : RedHatBoyState Jumping) (position : Int) :
    RedHatBoyState Running :=
  { context := self.context.reset_frame.set_on position, _state := {} }

/-- `RedHatBoyState::<Jumping>::update()` from `game.rs`: advance the context
with the `JUMPING_FRAMES` ceiling, auto-landing at `CANVAS_HEIGHT` once
`position.y` has reached `FLOOR`. -/
def jumpingUpdate (self : RedHatBoyState Jumping) : JumpingEndState :=
  let s := { self with context := self.context.update JUMPING_FRAMES }
  if s.context.position.y ≥ FLOOR then .Complete (jumpingLandOn s CANVAS_HEIGHT)
  else .Jumping s

/-- `RedHatBoyState::<Jumping>::knock_out()` from `game.rs`. -/
def jumpingKnockOut (self : RedHatBoyState Jumping) : RedHatBoyState Falling :=
  { context := self.context.reset_frame.stop, _state := {} }

/-- `FallingEndState` from `game.rs`. -/
inductive FallingEndState where
  | KnockedOut (state : RedHatBoyState KnockedOut)
  | Falling (state : RedHatBoyState Falling)
deriving DecidableEq, Repr

/-- `RedHatBoyState::<Falling>::down()` from `game.rs`. -/
def fallingDown (self : RedHatBoyState Falling) : RedHatBoyState KnockedOut :=
  { context := self.context, _state := {} }

/-- `RedHatBoyState::<Falling>::update()` from `game.rs`: advance the context
with the `FALLING_FRAMES` ceiling, becoming `KnockedOut` once the frame
counter reaches `FALLING_FRAMES`. -/
def fallingUpdate (self : RedHatBoyState Falling) : FallingEndState :=
  let s := { self with context := self.context.update FALLING_FRAMES }
  if s.context.frame ≥ FALLING_FRAMES then .KnockedOut (fallingDown s)
  else .Falling s

/-- `RedHatBoyState::<KnockedOut>::update()` from `game.rs`: advance the
context and pin the frame to `FALLING_FRAMES - 1`. -/
def knockedOutUpdate (self : RedHatBoyState KnockedOut) :
    RedHatBoyState KnockedOut :=
  { self with
    context := (self.context.update FALLING_FRAMES).fix_frame (FALLING_FRAMES - 1) }

/-- `RedHatBoyState::<KnockedOut>::land_on(position)` from `game.rs`. -/
def knockedOutLandOn (self : RedHatBoyState KnockedOut) (position : Int) :
    RedHatBoyState KnockedOut :=
  { self with context := self.context.set_on position }

end red_hat_boy_states

open red_hat_boy_states

/-- `Event` from `game.rs`. -/
inductive Event where
  | Run
  | Slide
  | Update
  | Jump
  | KnockOut
  | Land (y : Int)
deriving DecidableEq, Repr

/-- `RedHatBoyStateMachine` from `game.rs`. -/
inductive RedHatBoyStateMachine where
  | Idle (state : RedHatBoyState red_hat_boy_states.Idle)
  | Running (state : RedHatBoyState red_hat_boy_states.Running)
  | Sliding (state : RedHatBoyState red_hat_boy_states.Sliding)
  | Jumping (state : RedHatBoyState red_hat_boy_states.Jumping)
  | Falling (state : RedHatBoyState red_hat_boy_states.Falling)
  | KnockedOut (state : RedHatBoyState red_hat_boy_states.KnockedOut)
deriving DecidableEq, Repr

/-- `From<SlidingEndState>` impl from `game.rs`. -/
def red_hat_boy_states.SlidingEndState.toMachine :
    SlidingEndState → RedHatBoyStateMachine
  | .Complete s => .Running s
  | .Sliding s => .Sliding s

/-- `From<JumpingEndState>` impl from `game.rs`. -/
def red_hat_boy_states.JumpingEndState.toMachine :
    JumpingEndState → RedHatBoyStateMachine
  | .Complete s => .Running s
  | .Jumping s => .Jumping s

/-- `From<FallingEndState>` impl from `game.rs`. -/
def red_hat_boy_states.FallingEndState.toMachine :
    FallingEndState → RedHatBoyStateMachine
  | .KnockedOut s => .KnockedOut s
  | .Falling s => .Falling s

/-- `RedHatBoyStateMachine::transition(event)` from `game.rs`, pattern by
pattern; the final wildcard arm returns `self` unchanged. -/
def RedHatBoyStateMachine.transition (self : RedHatBoyStateMachine)
    (event : Event) : RedHatBoyStateMachine :=
  match self, event with
  | .Idle state, .Run => .Running (idleRun state)
  | .Running state, .Slide => .Sliding (runningSlide state)
  | .Running state, .Jump => .Jumping (runningJump state)
  | .Idle state, .Update => .Idle (idleUpdate state)
  | .Running state, .Update => .Running (runningUpdate state)
  | .Sliding state, .Update => (slidingUpdate state).toMachine
  | .Jumping state, .Update => (jumpingUpdate state).toMachine
  | .Falling state, .Update => (fallingUpdate state).toMachine
  | .KnockedOut state, .Update => .KnockedOut (knockedOutUpdate state)
  | .Running state, .KnockOut => .Falling (runningKnockOut state)
  | .Jumping state, .KnockOut => .Falling (jumpingKnockOut state)
  | .Sliding state, .KnockOut => .Falling (slidingKnockOut state)
  | .Jumping state, .Land y => .Running (jumpingLandOn state y)
  | .Running state, .Land y => .Running (runningLandOn state y)
  | .Sliding state, .Land y => .Sliding (slidingLandOn state y)
  | .KnockedOut state, .Land y => .KnockedOut (knockedOutLandOn state y)
  | _, _ => self

/-- `RedHatBoyStateMachine::context()` from `game.rs`. -/
def RedHatBoyStateMachine.context : RedHatBoyStateMachine → RedHatBoyContext
  | .Idle state => state.context
  | .Running state => state.context
  | .Sliding state => state.context
  | .Jumping state => state.context
  | .Falling state => state.context
  | .KnockedOut state => state.context

/-- `RedHatBoyStateMachine::update()` from `game.rs`. -/
def RedHatBoyStateMachine.update (self : RedHatBoyStateMachine) :
    RedHatBoyStateMachine :=
  self.transition .Update

/-- Discriminant of a machine state (which enum variant is active). -/
inductive Tag where
  | Idle
  | Running
  | Sliding
  | Jumping
  | Falling
  | KnockedOut
deriving DecidableEq, Repr

/-- The active variant of a `RedHatBoyStateMachine`. -/
def RedHatBoyStateMachine.tag : RedHatBoyStateMachine → Tag
  | .Idle _ => .Idle
  | .Running _ => .Running
  | .Sliding _ => .Sliding
  | .Jumping _ => .Jumping
  | .Falling _ => .Falling
  | .KnockedOut _ => .KnockedOut

/-- Rect from the engine module.  The `engine.rs` snapshot in the sources
predates the integer `Rect` that `segment.rs` and `game.rs` use (position
`Point` plus width and height, with `x()/y()/right()/bottom()/set_x`
accessors); its shape is reconstructed from those call sites. -/
structure Rect where
  position : Point
  width : Int
  height : Int
deriving DecidableEq, Repr

/-- `Rect::new_from_x_y(x, y, width, height)`. -/
def Rect.new_from_x_y (x y width height : Int) : Rect :=
  { position := { x := x, y := y }, width := width, height := height }

/-- `Rect::x()` accessor. -/
def Rect.x (self : Rect) : Int := self.position.x

/-- `Rect::y()` accessor. -/
def Rect.y (self : Rect) : Int := self.position.y

/-- `Rect::right() = x + width`. -/
def Rect.right (self : Rect) : Int := self.x + self.width

/-- `Rect::bottom() = y + height`. -/
def Rect.bottom (self : Rect) : Int := self.y + self.height

/-- Modelled from the spec: `Rect::intersects` is absent from the
`engine.rs` snapshot in the sources; §3 of the specification defines it as
the axis-aligned overlap test
`a.x < b.right && a.right > b.x && a.y < b.bottom && a.bottom > b.y`,
with exactly-touching edges counting as non-intersecting. -/
def Rect.intersects (self rect : Rect) : Bool :=
  self.x < rect.right && self.right > rect.x &&
  self.y < rect.bottom && self.bottom > rect.y

/-- `Platform` from `segment.rs`: position together with its (already
world-positioned) bounding boxes.  The sprite sheet and sprite cells only
feed drawing and are external to the simulation core. -/
structure Platform where
  position : Point
  bounding_boxes : List Rect
deriving DecidableEq, Repr

/-- `Platform::intersects(rect)` from `segment.rs`: the first bounding box
that intersects `rect`, if any. -/
def Platform.intersects (self : Platform) (rect : Rect) : Option Rect :=
  self.bounding_boxes.find? (fun bb => bb.intersects rect)

/-- Resolution delivered to the character by `check_intersection`
(`segment.rs`): a `land_on` call with a height, or a `knock_out` call. -/
inductive DisturbeeAction where
  | land_on (position : Int)
  | knock_out
deriving DecidableEq, Repr

/-- `Platform::check_intersection(disturbee)` from `segment.rs`, with the
disturbee's observable state (`bounding_box`, `velocity_y`, `pos_y`) passed
explicitly and the mutating call it performs returned as a value:
if some bounding box intersects, the disturbee receives `land_on(box.y)`
when it is descending (`velocity_y > 0`) and above the platform
(`pos_y < position.y`), and `knock_out` otherwise; with no intersection it
receives nothing. -/
def Platform.check_intersection (self : Platform) (bounding_box : Rect)
    (velocity_y pos_y : Int) : Option DisturbeeAction :=
  match self.intersects bounding_box with
  | some box_to_land_on =>
      if velocity_y > 0 ∧ pos_y < self.position.y then
        some (.land_on box_to_land_on.y)
      else
        some .knock_out
  | none => none

/-- `FRAME_SIZE` from `engine.rs` (`1.0 / 60.0 * 1000.0`), embedded as the
exact rational; on the concrete timestamps considered here every comparison
against the accumulator has the same outcome as with the `f32` constant. -/
def FRAME_SIZE : ℚ := 1 / 60 * 1000

/-- `GameLoop` from `engine.rs`. -/
structure GameLoop where
  last_frame : ℚ
  accumulated_delta : ℚ
deriving DecidableEq, Repr

/-- The `while accumulated_delta > FRAME_SIZE` loop of `GameLoop::start`
(`engine.rs`): repeatedly subtract `FRAME_SIZE` from the accumulator,
returning the final accumulator and the number of simulation steps run. -/
def drainAccumulator (acc : ℚ) : ℚ × Nat :=
  if h : acc > FRAME_SIZE then
    let r := drainAccumulator (acc - FRAME_SIZE)
    (r.1, r.2 + 1)
  else
    (acc, 0)
termination_by ⌈acc / FRAME_SIZE⌉.toNat
decreasing_by
  have hF : (0 : ℚ) < FRAME_SIZE := by norm_num [FRAME_SIZE]
  have h1 : (1 : ℚ) < acc / FRAME_SIZE := (one_lt_div hF).mpr h
  have h2 : (acc - FRAME_SIZE) / FRAME_SIZE = acc / FRAME_SIZE - 1 := by
    rw [sub_div, div_self hF.ne']
  have h3 : (0 : ℤ) < ⌈acc / FRAME_SIZE⌉ :=
    Int.ceil_pos.mpr (lt_trans one_pos h1)
  have h4 : ⌈(acc - FRAME_SIZE) / FRAME_SIZE⌉ = ⌈acc / FRAME_SIZE⌉ - 1 := by
    rw [h2]
    exact_mod_cast Int.ceil_sub_int (acc / FRAME_SIZE) 1
  omega

/-- One render callback of `GameLoop::start` (`engine.rs`) at wall-clock
timestamp `perf`: add `perf - last_frame` to the accumulator, run the
fixed-step drain loop, record `last_frame := perf`; the number of
simulation steps run is returned alongside the updated loop state. -/
def GameLoop.callback (self : GameLoop) (perf : ℚ) : GameLoop × Nat :=
  let acc := self.accumulated_delta + (perf - self.last_frame)
  let r := drainAccumulator acc
  ({ last_frame := perf, accumulated_delta := r.1 }, r.2)

/-- A sequence of render callbacks, collecting the per-callback simulation
step counts. -/
def GameLoop.run (self : GameLoop) : List ℚ → GameLoop × List Nat
  | [] => (self, [])
  | perf :: rest =>
      let r := self.callback perf
      let rr := r.1.run rest
      (rr.1, r.2 :: rr.2)

/-- `Walk` from `game.rs`, restricted to the simulation-core payload: the
character's state machine.  The sprite sheets, bitmaps and background/stone
images it also owns are external asset handles. -/
structure Walk where
  boy : RedHatBoyStateMachine
deriving DecidableEq, Repr

/-- `WalkTheDog` from `game.rs`: a session is `Loading` or `Loaded`. -/
inductive WalkTheDog where
  | Loading
  | Loaded (walk : Walk)
deriving DecidableEq, Repr

/-- `WalkTheDog::new()` from `game.rs`. -/
def WalkTheDog.new : WalkTheDog := .Loading

/-- Embeds `WalkTheDog::initialize` from `game.rs` (renamed here).  The `Loading` branch performs
asynchronous asset fetches through the `browser` module, which is absent
from the sources; modelled from the spec: the aggregate outcome of asset
loading is passed in as `loading : Except String Walk` (initialization
fails the whole session if any required asset fails).  The `Loaded` branch
is verbatim from the source: it returns
`Err("Error: Game is already initialized!")` and builds no new session. -/
def WalkTheDog.initializeSession (self : WalkTheDog) (loading : Except String Walk) :
    Except String WalkTheDog :=
  match self with
  | .Loading =>
      match loading with
      | .ok walk => .ok (.Loaded walk)
      | .error e => .error e
  | .Loaded _ => .error "Error: Game is already initialized!"

/-- Kind of an `Event`, forgetting the `Land` payload; used to index the
transition table of §4.1 of the specification. -/
inductive EventKind where
  | Run
  | Slide
  | Update
  | Jump
  | KnockOut
  | Land
deriving DecidableEq, Repr

/-- The kind of an event. -/
def Event.kind : Event → EventKind
  | .Run => .Run
  | .Slide => .Slide
  | .Update => .Update
  | .Jump => .Jump
  | .KnockOut => .KnockOut
  | .Land _ => .Land

/-- The transition table of §4.1 of the specification, written from the
spec's words (not from the code): the (state, event-kind) pairs listed as
having an effect. -/
def specListedPair : Tag → EventKind → Bool
  | .Idle, .Run => true
  | .Running, .Slide => true
  | .Running, .Jump => true
  | .Running, .KnockOut => true
  | .Jumping, .KnockOut => true
  | .Sliding, .KnockOut => true
  | .Jumping, .Land => true
  | .Running, .Land => true
  | .Sliding, .Land => true
  | .KnockedOut, .Land => true
  | _, .Update => true
  | _, _ => false

/-- Wrap an integer into the `i16` range [-32768, 32767] by two's
complement, the release-mode overflow behaviour of Rust `i16` addition. -/
def wrapI16 (x : Int) : Int := (x + 32768) % 65536 - 32768

/-- `RedHatBoyContext::update(frame_count)` from `game.rs` again, this time
embedding the two `i16` additions (`velocity.y += GRAVITY` and
`position.y += self.velocity.y`) with their release-mode wrapping
semantics.  `RedHatBoyContext.update` above agrees with this embedding
whenever both intermediate sums stay inside the `i16` range
(`update_eq_updateWrap` below). -/
def red_hat_boy_states.RedHatBoyContext.updateWrap
    (self : RedHatBoyContext) (frame_count : Nat) : RedHatBoyContext :=
  let c1 := { self with velocity.y := wrapI16 (self.velocity.y + GRAVITY) }
  let c2 := if c1.frame < frame_count then { c1 with frame := c1.frame + 1 }
            else { c1 with frame := 0 }
  let c3 := { c2 with position.y := wrapI16 (c2.position.y + c2.velocity.y) }
  if c3.position.y > FLOOR then { c3 with position.y := FLOOR } else c3

/-! Helper lemmas about the per-tick context update. -/

/-- Wrapping is idempotent over a further addition: wrapping the left
summand first does not change the wrapped sum. -/
theorem wrapI16_add_left (x y : Int) :
    wrapI16 (wrapI16 x + y) = wrapI16 (x + y) := by
  unfold wrapI16
  omega

/-- Wrapping is the identity on the `i16` range. -/
theorem wrapI16_eq_self (x : Int) (h1 : -32768 ≤ x) (h2 : x ≤ 32767) :
    wrapI16 x = x := by
  unfold wrapI16
  omega

/-- One wrapping context update sets the vertical velocity to the wrapped
sum with `GRAVITY`. -/
theorem red_hat_boy_states.RedHatBoyContext.updateWrap_velocity_y
    (c : RedHatBoyContext) (fc : Nat) :
    (c.updateWrap fc).velocity.y = wrapI16 (c.velocity.y + GRAVITY) := by
  simp only [RedHatBoyContext.updateWrap]
  split <;> split <;> rfl

/-- On contexts whose intermediate sums stay inside the `i16` range, the
unbounded-integer embedding of the context update and the wrapping
embedding coincide. -/
theorem update_eq_updateWrap (c : RedHatBoyContext) (fc : Nat)
    (hv1 : -32768 ≤ c.velocity.y + GRAVITY)
    (hv2 : c.velocity.y + GRAVITY ≤ 32767)
    (hp1 : -32768 ≤ c.position.y + (c.velocity.y + GRAVITY))
    (hp2 : c.position.y + (c.velocity.y + GRAVITY) ≤ 32767) :
    c.updateWrap fc = c.update fc := by
  simp only [RedHatBoyContext.updateWrap, RedHatBoyContext.update,
    wrapI16_eq_self _ hv1 hv2]
  split <;> simp [wrapI16_eq_self _ hp1 hp2]

/-- Iterating the wrapping context update accumulates gravity modulo the
`i16` width: after `N` ticks the vertical velocity is the wrapped value of
the start velocity plus `N * GRAVITY`. -/
theorem gravity_iter_wrap (fc : Nat) (c : RedHatBoyContext)
    (hlo : -32768 ≤ c.velocity.y) (hhi : c.velocity.y ≤ 32767) (N : Nat) :
    ((fun x => RedHatBoyContext.updateWrap x fc)^[N] c).velocity.y =
      wrapI16 (c.velocity.y + N * GRAVITY) := by
  induction N generalizing c with
  | zero => simp [wrapI16_eq_self _ hlo hhi]
  | succ n ih =>
      rw [Function.iterate_succ_apply]
      have hw : (c.updateWrap fc).velocity.y = wrapI16 (c.velocity.y + GRAVITY) :=
        RedHatBoyContext.updateWrap_velocity_y c fc
      have hlo2 : -32768 ≤ (c.updateWrap fc).velocity.y := by
        rw [hw]; unfold wrapI16; omega
      have hhi2 : (c.updateWrap fc).velocity.y ≤ 32767 := by
        rw [hw]; unfold wrapI16; omega
      rw [ih (c.updateWrap fc) hlo2 hhi2, hw, wrapI16_add_left]
      push_cast
      ring_nf

/-- One context update adds exactly `GRAVITY` to the vertical velocity. -/
theorem red_hat_boy_states.RedHatBoyContext.update_velocity_y
    (c : RedHatBoyContext) (fc : Nat) :
    (c.update fc).velocity.y = c.velocity.y + GRAVITY := by
  simp only [RedHatBoyContext.update]
  split <;> split <;> rfl

/-- One context update leaves the horizontal velocity unchanged. -/
theorem red_hat_boy_states.RedHatBoyContext.update_velocity_x
    (c : RedHatBoyContext) (fc : Nat) :
    (c.update fc).velocity.x = c.velocity.x := by
  simp only [RedHatBoyContext.update]
  split <;> split <;> rfl

/-- One context update leaves the horizontal position unchanged. -/
theorem red_hat_boy_states.RedHatBoyContext.update_position_x
    (c : RedHatBoyContext) (fc : Nat) :
    (c.update fc).position.x = c.position.x := by
  simp only [RedHatBoyContext.update]
  split <;> split <;> rfl

/-- One context update advances the frame counter, wrapping at the ceiling. -/
theorem red_hat_boy_states.RedHatBoyContext.update_frame
    (c : RedHatBoyContext) (fc : Nat) :
    (c.update fc).frame = if c.frame < fc then c.frame + 1 else 0 := by
  simp only [RedHatBoyContext.update]
  split <;> split <;> simp_all

/-- A single Update on a KnockedOut machine stays KnockedOut with the frame
pinned to `FALLING_FRAMES - 1`. -/
theorem knockedOut_step (s : RedHatBoyStateMachine) (h : s.tag = .KnockedOut) :
    (s.update).tag = Tag.KnockedOut ∧
    (s.update).context.frame = FALLING_FRAMES - 1 := by
  cases s <;> simp_all [RedHatBoyStateMachine.tag]
  simp [RedHatBoyStateMachine.update, RedHatBoyStateMachine.transition,
    knockedOutUpdate, RedHatBoyStateMachine.tag, RedHatBoyStateMachine.context,
    RedHatBoyContext.fix_frame]

/-- Iterated Updates on a KnockedOut machine stay KnockedOut with the frame
pinned to `FALLING_FRAMES - 1`. -/
theorem knockedOut_iter (m : Nat) (s : RedHatBoyStateMachine)
    (h : s.tag = .KnockedOut) :
    (RedHatBoyStateMachine.update^[m + 1] s).tag = Tag.KnockedOut ∧
    (RedHatBoyStateMachine.update^[m + 1] s).context.frame =
      FALLING_FRAMES - 1 := by
  induction m generalizing s with
  | zero => exact knockedOut_step s h
  | succ k ih =>
      rw [Function.iterate_succ_apply]
      exact ih _ (knockedOut_step s h).1

/-- Iterating the context update `N` times adds `N * GRAVITY` to the
vertical velocity: no clamp exists in `RedHatBoyContext::update`. -/
theorem gravity_iter (fc : Nat) (c : RedHatBoyContext) (N : Nat) :
    ((fun x => RedHatBoyContext.update x fc)^[N] c).velocity.y =
      c.velocity.y + N * GRAVITY := by
  induction N generalizing c with
  | zero => simp
  | succ n ih =>
      rw [Function.iterate_succ_apply, ih, RedHatBoyContext.update_velocity_y]
      push_cast
      ring

/-- A Sliding machine whose next frame is still below the ceiling stays
Sliding under Update. -/
theorem sliding_step_mid (c : RedHatBoyContext)
    (h : c.frame + 1 < SLIDING_FRAMES) :
    RedHatBoyStateMachine.update (.Sliding ⟨c, {}⟩) =
      .Sliding ⟨c.update SLIDING_FRAMES, {}⟩ := by
  have hfr : (c.update SLIDING_FRAMES).frame = c.frame + 1 := by
    rw [RedHatBoyContext.update_frame,
      if_pos (by omega : c.frame < SLIDING_FRAMES)]
  have hcond : ¬ ((c.update SLIDING_FRAMES).frame ≥ SLIDING_FRAMES) := by
    rw [hfr]; omega
  simp [RedHatBoyStateMachine.update, RedHatBoyStateMachine.transition,
    slidingUpdate, SlidingEndState.toMachine, hcond]

/-- A Sliding machine whose next frame reaches the ceiling completes to
Running (with the frame reset) under Update. -/
theorem sliding_step_end (c : RedHatBoyContext)
    (hlt : c.frame < SLIDING_FRAMES) (h : SLIDING_FRAMES ≤ c.frame + 1) :
    RedHatBoyStateMachine.update (.Sliding ⟨c, {}⟩) =
      .Running ⟨(c.update SLIDING_FRAMES).reset_frame, {}⟩ := by
  have hfr : (c.update SLIDING_FRAMES).frame = c.frame + 1 := by
    rw [RedHatBoyContext.update_frame, if_pos hlt]
  have hcond : (c.update SLIDING_FRAMES).frame ≥ SLIDING_FRAMES := by
    rw [hfr]; omega
  simp [RedHatBoyStateMachine.update, RedHatBoyStateMachine.transition,
    slidingUpdate, SlidingEndState.toMachine, slidingStand, hcond]

/-- Iterating Update `k` times from a fresh Sliding state (frame 0) stays
Sliding with frame `k`, for `k + 1 ≤ SLIDING_FRAMES`. -/
theorem sliding_iter (k : Nat) (hk : k + 1 ≤ SLIDING_FRAMES) (p v : Point) :
    ∃ p' v',
      RedHatBoyStateMachine.update^[k]
          (.Sliding ⟨{ frame := 0, position := p, velocity := v }, {}⟩) =
        .Sliding ⟨{ frame := k, position := p', velocity := v' }, {}⟩ := by
  induction k with
  | zero => exact ⟨p, v, rfl⟩
  | succ m ih =>
      obtain ⟨p', v', heq⟩ := ih (by omega)
      rw [Function.iterate_succ_apply', heq,
        sliding_step_mid _ (by simpa using hk)]
      refine ⟨(RedHatBoyContext.update ⟨m, p', v'⟩ SLIDING_FRAMES).position,
              (RedHatBoyContext.update ⟨m, p', v'⟩ SLIDING_FRAMES).velocity, ?_⟩
      have hfr : (RedHatBoyContext.update ⟨m, p', v'⟩ SLIDING_FRAMES).frame =
          m + 1 := by
        rw [RedHatBoyContext.update_frame]
        exact if_pos (show m < SLIDING_FRAMES by omega)
      have hctx : ({ frame := m + 1,
                     position := (RedHatBoyContext.update ⟨m, p', v'⟩ SLIDING_FRAMES).position,
                     velocity := (RedHatBoyContext.update ⟨m, p', v'⟩ SLIDING_FRAMES).velocity } :
                    RedHatBoyContext) =
          RedHatBoyContext.update ⟨m, p', v'⟩ SLIDING_FRAMES := by
        rw [← hfr]
      rw [hctx]

/-- Unfolding of the drain loop when the accumulator is at or below
`FRAME_SIZE`: no step runs. -/
theorem drain_le (acc : ℚ) (h : ¬ acc > FRAME_SIZE) :
    drainAccumulator acc = (acc, 0) := by
  rw [drainAccumulator]
  simp [h]

/-- Unfolding of the drain loop when the accumulator exceeds `FRAME_SIZE`:
one step runs and `FRAME_SIZE` is subtracted. -/
theorem drain_gt (acc : ℚ) (h : acc > FRAME_SIZE) :
    drainAccumulator acc =
      ((drainAccumulator (acc - FRAME_SIZE)).1,
       (drainAccumulator (acc - FRAME_SIZE)).2 + 1) := by
  rw [drainAccumulator]
  simp [h]

/-- The callbacks at timestamps 0, 8, 16 and 50 ms, starting with
`last_frame = 0` and an empty accumulator, run 0, 0, 0 and 2 simulation
steps respectively (the accumulator holds 16 < 1000/60 ms at the third
callback, and 50 ms buys exactly two fixed steps at the fourth). -/
theorem gameLoop_scenario :
    (GameLoop.run ⟨0, 0⟩ [0, 8, 16, 50]).2 = [0, 0, 0, 2] := by
  have d0 : drainAccumulator 0 = (0, 0) := drain_le 0 (by norm_num [FRAME_SIZE])
  have d8 : drainAccumulator 8 = (8, 0) := drain_le 8 (by norm_num [FRAME_SIZE])
  have d16 : drainAccumulator 16 = (16, 0) :=
    drain_le 16 (by norm_num [FRAME_SIZE])
  have dt2 : drainAccumulator (50 - FRAME_SIZE - FRAME_SIZE) =
      (50 - FRAME_SIZE - FRAME_SIZE, 0) :=
    drain_le _ (by norm_num [FRAME_SIZE])
  have dt1 : drainAccumulator (50 - FRAME_SIZE) =
      (50 - FRAME_SIZE - FRAME_SIZE, 1) := by
    rw [drain_gt _ (by norm_num [FRAME_SIZE]), dt2]
  have d50 : drainAccumulator 50 = (50 - FRAME_SIZE - FRAME_SIZE, 2) := by
    rw [drain_gt _ (by norm_num [FRAME_SIZE]), dt1]
  simp only [GameLoop.run, GameLoop.callback]
  norm_num [d0, d8, d16, d50]

/-- Claim C1: for every state of the character state machine and every
event, if the (state, event) pair is not listed in the transition table of
§4.1 then `transition` returns the input state completely unchanged (same
tag, frame, position and velocity); `transition` is a total function, so it
never fails for any (state, event) pair. -/
theorem c1_unlisted_pairs_noop (s : RedHatBoyStateMachine) (e : Event)
    (h : specListedPair s.tag e.kind = false) : s.transition e = s := by
  cases s <;> cases e <;>
    first
      | rfl
      | exact absurd h
          (by simp [RedHatBoyStateMachine.tag, Event.kind, specListedPair])

/-- Witness for C1: `Jump` in the `Idle` state is not in the §4.1 table,
and `transition` leaves the freshly created Idle state unchanged. -/
theorem c1_witness :
    specListedPair (RedHatBoyStateMachine.Idle RedHatBoyState.new).tag
        Event.Jump.kind = false ∧
    (RedHatBoyStateMachine.Idle RedHatBoyState.new).transition .Jump =
      .Idle RedHatBoyState.new :=
  ⟨by decide,
   c1_unlisted_pairs_noop (.Idle RedHatBoyState.new) .Jump (by decide)⟩

/-- Claim C2: whenever the character's bounding box intersects one of a
platform's bounding boxes, `check_intersection` delivers `land_on` with the
(first) intersected box's top y if the character is descending
(`velocity_y > 0`) and strictly above the platform's top y-coordinate, and
`knock_out` otherwise. -/
theorem c2_check_intersection (p : Platform) (r : Rect) (vy py : Int)
    (h : ∃ bb ∈ p.bounding_boxes, bb.intersects r = true) :
    ∃ bb, p.intersects r = some bb ∧ bb ∈ p.bounding_boxes ∧
      bb.intersects r = true ∧
      p.check_intersection r vy py =
        some (if vy > 0 ∧ py < p.position.y then .land_on bb.y
              else .knock_out) := by
  obtain ⟨bb0, hmem, hint⟩ := h
  have hs : (p.bounding_boxes.find? (fun bb => bb.intersects r)).isSome := by
    rw [List.find?_isSome]
    exact ⟨bb0, hmem, hint⟩
  obtain ⟨bb, hfind⟩ := Option.isSome_iff_exists.mp hs
  have hbb := List.find?_some hfind
  refine ⟨bb, hfind, List.mem_of_find?_eq_some hfind, by simpa using hbb, ?_⟩
  simp only [Platform.check_intersection, Platform.intersects, hfind]
  split <;> rfl

/-- Witness for C2: a platform box at (370, 420) of size 60×54 intersected
by a 30×30 box at (380, 400); the intersection hypothesis is discharged by
computation. -/
theorem c2_witness :
    ∃ bb, (Platform.mk ⟨370, 420⟩
          [Rect.new_from_x_y 370 420 60 54]).intersects
            (Rect.new_from_x_y 380 400 30 30) = some bb ∧
      bb ∈ (Platform.mk ⟨370, 420⟩
          [Rect.new_from_x_y 370 420 60 54]).bounding_boxes ∧
      bb.intersects (Rect.new_from_x_y 380 400 30 30) = true ∧
      (Platform.mk ⟨370, 420⟩
          [Rect.new_from_x_y 370 420 60 54]).check_intersection
            (Rect.new_from_x_y 380 400 30 30) 5 400 =
        some (if (5 : Int) > 0 ∧
                  (400 : Int) < (Platform.mk (⟨370, 420⟩ : Point)
                    [Rect.new_from_x_y 370 420 60 54]).position.y then
                .land_on bb.y
              else .knock_out) :=
  c2_check_intersection (Platform.mk ⟨370, 420⟩
    [Rect.new_from_x_y 370 420 60 54]) (Rect.new_from_x_y 380 400 30 30)
    5 400 (by decide)

/-- Counterexample for C3: even under the faithful release-mode `i16`
wrapping semantics of `RedHatBoyContext::update`, no integer constant
`terminal_speed` makes the vertical velocity after `N` ticks equal
`min (N * GRAVITY) terminal_speed` for every `N`, starting from the initial
context (velocity.y = 0): the code contains no terminal-speed clamp, only
the eventual `i16` wraparound, which `min` cannot describe. -/
theorem c3_counterexample :
    ¬ ∃ terminal_speed : Int, ∀ N : Nat,
        ((fun x => RedHatBoyContext.updateWrap x RUNNING_FRAMES)^[N]
            RedHatBoyState.new.context).velocity.y =
          min ((N : Int) * GRAVITY) terminal_speed := by
  rintro ⟨T, hT⟩
  have h0 := hT 0
  have hA := hT 32768
  have hB := hT (T.toNat + 1)
  rw [gravity_iter_wrap RUNNING_FRAMES RedHatBoyState.new.context
    (by norm_num [RedHatBoyState.new]) (by norm_num [RedHatBoyState.new])]
    at h0 hA hB
  simp only [RedHatBoyState.new, GRAVITY, mul_one, Nat.cast_zero,
    Nat.cast_add, Nat.cast_one, Nat.cast_ofNat, zero_add, wrapI16]
    at h0 hA hB
  omega

/-- Claim C3 (amended): starting from a context with velocity.y = 0 (and
under the faithful release-mode `i16` wrapping semantics of the update),
after `N` consecutive context updates the vertical velocity equals
`N * GRAVITY` wrapped into the `i16` range — and therefore equals
`N * GRAVITY` exactly for every `N` up to the `i16` maximum 32767.  Gravity
accumulation is monotonic throughout the `i16` range and is never clamped:
the code has no terminal falling speed, only machine-width wraparound. -/
theorem c3_gravity_unclamped (fc : Nat) (c : RedHatBoyContext)
    (h : c.velocity.y = 0) (N : Nat) :
    ((fun x => RedHatBoyContext.updateWrap x fc)^[N] c).velocity.y =
      wrapI16 (N * GRAVITY) ∧
    (N ≤ 32767 →
      ((fun x => RedHatBoyContext.updateWrap x fc)^[N] c).velocity.y =
        N * GRAVITY) := by
  have hmain : ((fun x => RedHatBoyContext.updateWrap x fc)^[N] c).velocity.y =
      wrapI16 (N * GRAVITY) := by
    rw [gravity_iter_wrap fc c (by rw [h]; norm_num) (by rw [h]; norm_num),
      h, zero_add]
  refine ⟨hmain, fun hN => ?_⟩
  rw [hmain, GRAVITY, mul_one]
  exact wrapI16_eq_self _ (by omega) (by exact_mod_cast hN)

/-- Witness for C3: the freshly created context has velocity.y = 0, and 40
updates later the vertical velocity is 40 × GRAVITY = 40. -/
theorem c3_witness :
    RedHatBoyState.new.context.velocity.y = 0 ∧
    ((fun x => RedHatBoyContext.updateWrap x RUNNING_FRAMES)^[40]
        RedHatBoyState.new.context).velocity.y = (40 : Nat) * GRAVITY :=
  ⟨rfl,
   (c3_gravity_unclamped RUNNING_FRAMES RedHatBoyState.new.context rfl 40).2
     (by norm_num)⟩

/-- Counterexample for C4: with `last_frame = 0`, an empty accumulator and
`frame_size = 1000/60` ms, the callbacks at 0, 8, 16 and 50 ms do NOT run
0, 0, 1 and 2 simulation steps — the third callback runs 0 steps, since the
accumulator then holds 16 ms, which does not exceed 1000/60 ≈ 16.67 ms. -/
theorem c4_counterexample :
    (GameLoop.run ⟨0, 0⟩ [0, 8, 16, 50]).2 ≠ [0, 0, 1, 2] := by
  rw [gameLoop_scenario]
  decide

/-- Claim C4 (amended): with `last_frame` initially 0, an accumulator
starting at 0 and `frame_size = 1000/60` ms, the render callbacks with
timestamps 0, 8, 16 and 50 ms run exactly 0, 0, 0 and 2 fixed simulation
steps respectively. -/
theorem c4_fixed_step_counts :
    (GameLoop.run ⟨0, 0⟩ [0, 8, 16, 50]).2 = [0, 0, 0, 2] :=
  gameLoop_scenario

/-- Claim C5: KnockedOut is absorbing under Update — from every KnockedOut
machine state, any positive number of Update events yields a state whose
tag is still KnockedOut and whose frame equals `FALLING_FRAMES - 1`. -/
theorem c5_knocked_out_absorbing (s : RedHatBoyStateMachine)
    (h : s.tag = .KnockedOut) (n : Nat) (hn : 1 ≤ n) :
    (RedHatBoyStateMachine.update^[n] s).tag = Tag.KnockedOut ∧
    (RedHatBoyStateMachine.update^[n] s).context.frame =
      FALLING_FRAMES - 1 := by
  obtain ⟨m, rfl⟩ : ∃ m, n = m + 1 := ⟨n - 1, by omega⟩
  exact knockedOut_iter m s h

/-- Witness for C5: a concrete KnockedOut state stays KnockedOut with frame
`FALLING_FRAMES - 1` after 3 Updates. -/
theorem c5_witness :
    (RedHatBoyStateMachine.update^[3]
        (.KnockedOut ⟨⟨7, ⟨10, 300⟩, ⟨0, 3⟩⟩, {}⟩)).tag = Tag.KnockedOut ∧
    (RedHatBoyStateMachine.update^[3]
        (.KnockedOut ⟨⟨7, ⟨10, 300⟩, ⟨0, 3⟩⟩, {}⟩)).context.frame =
      FALLING_FRAMES - 1 :=
  c5_knocked_out_absorbing (.KnockedOut ⟨⟨7, ⟨10, 300⟩, ⟨0, 3⟩⟩, {}⟩)
    rfl 3 (by decide)

/-- Counterexample for C6: the tag is not always preserved — a Jumping
state receiving `Land(400)` becomes Running, not Jumping. -/
theorem c6_counterexample :
    ¬ (((RedHatBoyStateMachine.Jumping
          { context := { frame := 5, position := ⟨10, 300⟩,
                         velocity := ⟨4, 6⟩ }, _state := {} }).transition
            (.Land 400)).tag =
        (RedHatBoyStateMachine.Jumping
          { context := { frame := 5, position := ⟨10, 300⟩,
                         velocity := ⟨4, 6⟩ }, _state := {} }).tag) := by
  decide

/-- Claim C6 (amended): for every state in the family
{Jumping, Running, Sliding, KnockedOut}, `Land(height)` produces a state in
the same family — Running, Sliding and KnockedOut keep their tag, while
Jumping becomes Running — and in every case the vertical position is
snapped to `height − PLAYER_HEIGHT` and the vertical velocity is zeroed. -/
theorem c6_land_family (s : RedHatBoyStateMachine)
    (h : s.tag = .Jumping ∨ s.tag = .Running ∨ s.tag = .Sliding ∨
         s.tag = .KnockedOut) (height : Int) :
    (s.transition (.Land height)).tag =
      (if s.tag = Tag.Jumping then Tag.Running else s.tag) ∧
    (s.transition (.Land height)).context.position.y =
      height - PLAYER_HEIGHT ∧
    (s.transition (.Land height)).context.velocity.y = 0 := by
  cases s <;> simp_all [RedHatBoyStateMachine.tag] <;>
    simp [RedHatBoyStateMachine.transition, RedHatBoyStateMachine.tag,
      RedHatBoyStateMachine.context, jumpingLandOn, runningLandOn,
      slidingLandOn, knockedOutLandOn, RedHatBoyContext.reset_frame,
      RedHatBoyContext.set_on]

/-- Witness for C6: a concrete Running state lands on height 400 with
position.y = 400 − PLAYER_HEIGHT and velocity.y = 0, keeping its tag. -/
theorem c6_witness :
    ((RedHatBoyStateMachine.Running
        ⟨⟨2, ⟨5, 450⟩, ⟨4, 5⟩⟩, {}⟩).transition (.Land 400)).tag =
      (if (RedHatBoyStateMachine.Running
            ⟨⟨2, ⟨5, 450⟩, ⟨4, 5⟩⟩, {}⟩).tag = Tag.Jumping then Tag.Running
       else (RedHatBoyStateMachine.Running
            ⟨⟨2, ⟨5, 450⟩, ⟨4, 5⟩⟩, {}⟩).tag) ∧
    ((RedHatBoyStateMachine.Running
        ⟨⟨2, ⟨5, 450⟩, ⟨4, 5⟩⟩, {}⟩).transition
          (.Land 400)).context.position.y = 400 - PLAYER_HEIGHT ∧
    ((RedHatBoyStateMachine.Running
        ⟨⟨2, ⟨5, 450⟩, ⟨4, 5⟩⟩, {}⟩).transition
          (.Land 400)).context.velocity.y = 0 :=
  c6_land_family (.Running ⟨⟨2, ⟨5, 450⟩, ⟨4, 5⟩⟩, {}⟩)
    (Or.inr (Or.inl rfl)) 400

/-- Claim C7: for every character context and every landing height,
`set_on` (the effect of a fired Land event on the context) zeroes the
vertical velocity and sets `position.y = height − PLAYER_HEIGHT`,
regardless of the sign of the prior vertical velocity. -/
theorem c7_land_sets_position (c : RedHatBoyContext) (height : Int) :
    (c.set_on height).velocity.y = 0 ∧
    (c.set_on height).position.y = height - PLAYER_HEIGHT :=
  ⟨rfl, rfl⟩

/-- Claim C8: from entry into the Sliding state (`Running::slide`, which
resets the animation frame to 0), exactly `SLIDING_FRAMES` consecutive
Update ticks — no fewer, no more — cause the transition to Running, and
the resulting Running state has its frame reset to 0. -/
theorem c8_sliding_duration (r : RedHatBoyState red_hat_boy_states.Running) :
    (∀ k, k < SLIDING_FRAMES →
        (RedHatBoyStateMachine.update^[k]
            (.Sliding (runningSlide r))).tag = Tag.Sliding) ∧
    (RedHatBoyStateMachine.update^[SLIDING_FRAMES]
        (.Sliding (runningSlide r))).tag = Tag.Running ∧
    (RedHatBoyStateMachine.update^[SLIDING_FRAMES]
        (.Sliding (runningSlide r))).context.frame = 0 := by
  have hbase : RedHatBoyStateMachine.Sliding (runningSlide r) =
      .Sliding ⟨{ frame := 0, position := r.context.position,
                  velocity := r.context.velocity }, {}⟩ := rfl
  refine ⟨?_, ?_⟩
  · intro k hk
    obtain ⟨p', v', heq⟩ :=
      sliding_iter k (by omega) r.context.position r.context.velocity
    rw [hbase, heq]
    rfl
  · obtain ⟨p', v', heq⟩ :=
      sliding_iter 13 (by decide) r.context.position r.context.velocity
    have hsplit : RedHatBoyStateMachine.update^[SLIDING_FRAMES]
        (.Sliding (runningSlide r)) =
        RedHatBoyStateMachine.update (RedHatBoyStateMachine.update^[13]
          (.Sliding (runningSlide r))) := by
      rw [show SLIDING_FRAMES = 13 + 1 from rfl, Function.iterate_succ_apply']
    rw [hsplit, hbase, heq,
      sliding_step_end _ (by decide : (13 : Nat) < SLIDING_FRAMES)
        (by decide : SLIDING_FRAMES ≤ 13 + 1)]
    exact ⟨rfl, rfl⟩

/-- Witness for C8: from sliding entry out of a concrete Running state, the
5th Update tick still finds the machine Sliding, while tick number
`SLIDING_FRAMES` produces Running with frame 0. -/
theorem c8_witness :
    (RedHatBoyStateMachine.update^[5]
        (.Sliding (runningSlide ⟨⟨3, ⟨10, 300⟩, ⟨4, 0⟩⟩, {}⟩))).tag =
      Tag.Sliding ∧
    (RedHatBoyStateMachine.update^[SLIDING_FRAMES]
        (.Sliding (runningSlide ⟨⟨3, ⟨10, 300⟩, ⟨4, 0⟩⟩, {}⟩))).tag =
      Tag.Running ∧
    (RedHatBoyStateMachine.update^[SLIDING_FRAMES]
        (.Sliding (runningSlide ⟨⟨3, ⟨10, 300⟩, ⟨4, 0⟩⟩, {}⟩))).context.frame =
      0 :=
  ⟨(c8_sliding_duration ⟨⟨3, ⟨10, 300⟩, ⟨4, 0⟩⟩, {}⟩).1 5 (by decide),
   (c8_sliding_duration ⟨⟨3, ⟨10, 300⟩, ⟨4, 0⟩⟩, {}⟩).2.1,
   (c8_sliding_duration ⟨⟨3, ⟨10, 300⟩, ⟨4, 0⟩⟩, {}⟩).2.2⟩

/-- Claim C9: `initialize` on an already-Loaded session reports an error
(building no new session, so the loaded state is untouched), and a
successful `initialize` is only possible from the Loading state. -/
theorem c9_initialize_once :
    (∀ (walk : Walk) (loading : Except String Walk),
        WalkTheDog.initializeSession (.Loaded walk) loading =
          .error "Error: Game is already initialized!") ∧
    (∀ (s : WalkTheDog) (loading : Except String Walk) (s' : WalkTheDog),
        WalkTheDog.initializeSession s loading = .ok s' → s = .Loading) := by
  refine ⟨fun walk loading => rfl, fun s loading s' h => ?_⟩
  cases s with
  | Loading => rfl
  | Loaded walk => simp [WalkTheDog.initializeSession] at h

/-- Witness for C9: initializing a concrete Loaded session errors, and the
successful initialization from Loading indeed started from Loading. -/
theorem c9_witness :
    WalkTheDog.initializeSession (.Loaded ⟨.Idle RedHatBoyState.new⟩)
        (.ok ⟨.Idle RedHatBoyState.new⟩) =
      .error "Error: Game is already initialized!" ∧
    (WalkTheDog.Loading : WalkTheDog) = .Loading :=
  ⟨c9_initialize_once.1 ⟨.Idle RedHatBoyState.new⟩
      (.ok ⟨.Idle RedHatBoyState.new⟩),
   c9_initialize_once.2 .Loading (.ok ⟨.Idle RedHatBoyState.new⟩)
      (.Loaded ⟨.Idle RedHatBoyState.new⟩) rfl⟩

/-- Claim C10: for every character state, the Update event leaves the
horizontal position and the horizontal velocity unchanged — the per-tick
physics update touches only the frame counter, the vertical velocity and
the vertical position. -/
theorem c10_update_preserves_horizontal (s : RedHatBoyStateMachine) :
    (s.update).context.position.x = s.context.position.x ∧
    (s.update).context.velocity.x = s.context.velocity.x := by
  cases s with
  | Idle st =>
      exact ⟨RedHatBoyContext.update_position_x ..,
             RedHatBoyContext.update_velocity_x ..⟩
  | Running st =>
      exact ⟨RedHatBoyContext.update_position_x ..,
             RedHatBoyContext.update_velocity_x ..⟩
  | Sliding st =>
      by_cases h : (st.context.update SLIDING_FRAMES).frame ≥ SLIDING_FRAMES <;>
        simp [RedHatBoyStateMachine.update, RedHatBoyStateMachine.transition,
          slidingUpdate, h, SlidingEndState.toMachine,
          RedHatBoyStateMachine.context, slidingStand,
          RedHatBoyContext.reset_frame, RedHatBoyContext.update_position_x,
          RedHatBoyContext.update_velocity_x]
  | Jumping st =>
      by_cases h : (st.context.update JUMPING_FRAMES).position.y ≥ FLOOR <;>
        simp [RedHatBoyStateMachine.update, RedHatBoyStateMachine.transition,
          jumpingUpdate, h, JumpingEndState.toMachine,
          RedHatBoyStateMachine.context, jumpingLandOn,
          RedHatBoyContext.reset_frame, RedHatBoyContext.set_on,
          RedHatBoyContext.update_position_x,
          RedHatBoyContext.update_velocity_x]
  | Falling st =>
      by_cases h : (st.context.update FALLING_FRAMES).frame ≥ FALLING_FRAMES <;>
        simp [RedHatBoyStateMachine.update, RedHatBoyStateMachine.transition,
          fallingUpdate, h, FallingEndState.toMachine,
          RedHatBoyStateMachine.context, fallingDown,
          RedHatBoyContext.update_position_x,
          RedHatBoyContext.update_velocity_x]
  | KnockedOut st =>
      simp [RedHatBoyStateMachine.update, RedHatBoyStateMachine.transition,
        knockedOutUpdate, RedHatBoyStateMachine.context,
        RedHatBoyContext.fix_frame, RedHatBoyContext.update_position_x,
        RedHatBoyContext.update_velocity_x]
